import Mathlib

/-!
# PotMatch — verification of the spec's claims against the sketch

Shallow embedding of `src/PotMatch.ino`. Every global variable of the sketch
becomes a field of `PMState`; every function becomes a state-transformer taking
the values the Arduino runtime would supply (the raw pin reads, the fresh
random target, and `millis()` as `now`). Machine `unsigned long` / `int`
arithmetic is modelled with `Nat` / `Int`; the spec (§6) declares clock
wrap-around irrelevant at realistic uptimes, and all stored timestamps are
written from `now`, so the `Nat` truncated subtraction agrees with the
device's unsigned subtraction on the states the theorems quantify over.

Hardware side effects are modelled as data: the six LED output levels as a
`List Bool`, the active buzzer frequency and its deadline, the two cached LCD
lines, and whether the LCD text is displayed.
-/

namespace PotMatch

/-- Arduino `LOW` pin level (the button is active-low). -/
abbrev LOW : Nat := 0

/-- Arduino `HIGH` pin level. -/
abbrev HIGH : Nat := 1

-- timing constants of the sketch
def POT_STABLE_MS : Nat := 500
def IDLE_TIMEOUT_MS : Nat := 36000
def CLICK_WINDOW_MS : Nat := 700
def LONG_PRESS_MS : Nat := 800
def WIN_DISPLAY_MS : Nat := 5000

/-- `struct LevelConfig { unsigned long timerMs; int winWindow; int triesAllowed; }`. -/
structure LevelConfig where
  timerMs : Nat
  winWindow : Int
  triesAllowed : Int
deriving DecidableEq

/-- The level table `lvl[6]` as filled by `initLevels()`; index 0 is the
unused zero-initialised slot of the global array. -/
def lvl : Nat → LevelConfig
  | 1 => ⟨0, 60, 0⟩
  | 2 => ⟨20000, 42, 0⟩
  | 3 => ⟨15000, 36, 0⟩
  | 4 => ⟨15000, 16, 5⟩
  | 5 => ⟨13000, 16, 3⟩
  | _ => ⟨0, 0, 0⟩

/-- Win melody note frequencies `winNotes[]`. -/
def winNotes : List Int := [1047, 1319, 1568, 2093]

/-- Win melody note durations `winDur[]`. -/
def winDur : List Nat := [160, 160, 200, 340]

/-- `winCount = sizeof(winNotes)/sizeof(winNotes[0])`. -/
def winCount : Nat := 4

/-- All mutable global state of the sketch, plus the modelled hardware
outputs (`leds`, `displayOn`) and the static locals of `checkMelody`. -/
structure PMState where
  selectedLevel : Nat
  unlockedLevel : Nat
  currentScreen : Nat        -- 0=welcome, 1=levelSelect, 2=inGame, 3=winAnim, 4=sleep
  lastActivity : Nat
  lastPotRaw : Int
  potChangedAt : Nat
  potStable : Bool
  stableValue : Int
  roundTarget : Int
  levelStartedAt : Nat
  triesLeft : Int
  btnState : Nat
  btnLast : Nat
  btnChangedAt : Nat
  btnDownAt : Nat
  clickCount : Nat
  lastClickTime : Nat
  toneEndAt : Nat
  toneOnFreq : Int
  melodyIndex : Nat
  melodyNoteEnd : Nat
  melodyPlaying : Bool
  winAnimEnd : Nat
  winAnimActive : Bool
  lcdLine0 : String
  lcdLine1 : String
  displayOn : Bool
  leds : List Bool
  lastBlink : Nat
  blinkState : Bool
deriving DecidableEq

/-- `lcdPrintIfChanged`: redraw (update the cache) only when a line differs. -/
def lcdPrintIfChanged (s : PMState) (l0 l1 : String) : PMState :=
  if l0 ≠ s.lcdLine0 ∨ l1 ≠ s.lcdLine1 then
    { s with lcdLine0 := l0, lcdLine1 := l1 }
  else s

/-- `diffToState`: map `diff = |reading - target|` to a closeness band. -/
def diffToState (diff winW : Int) : Nat :=
  if diff ≤ winW then 5
  else if diff ≤ winW * 2 then 4
  else if diff ≤ winW * 4 then 3
  else if diff ≤ winW * 8 then 2
  else if diff ≤ winW * 15 then 1
  else 0

/-- The per-band LCD message of the `switch` in `acceptStablePot`. -/
def stateMsg : Nat → String
  | 0 => "Way off, try harder!"
  | 1 => "Still far, >-<!"
  | 2 => "Getting closer :D"
  | 3 => "Close!!!!"
  | 4 => "Just a little! YAY"
  | 5 => "Correct! YAY YAY YAYYY"
  | _ => "??"

/-- `setLEDsForState`: the six LED levels driven for each band
(pins D3..D8 left to right: three red then three green). -/
def setLEDsForState : Nat → List Bool
  | 0 => [true, true, true, false, false, false]
  | 1 => [true, true, false, false, false, false]
  | 2 => [false, true, false, false, false, false]
  | 3 => [false, false, false, true, false, false]
  | 4 => [false, false, false, true, true, false]
  | 5 => [false, false, false, true, true, true]
  | _ => [false, false, false, false, false, false]

/-- `startToneNB(freq, dur)`: begin a tone, record its deadline. -/
def startToneNB (s : PMState) (freq : Int) (dur : Nat) (now : Nat) : PMState :=
  if freq ≤ 0 then s
  else { s with toneOnFreq := freq, toneEndAt := now + dur }

/-- `checkToneNB()`: stop the tone when its deadline has passed. -/
def checkToneNB (s : PMState) (now : Nat) : PMState :=
  if s.toneEndAt ≠ 0 ∧ now ≥ s.toneEndAt then
    { s with toneOnFreq := 0, toneEndAt := 0 }
  else s

/-- `triggerLoseTone(state)`: fixed per-band tone lookup. -/
def triggerLoseTone (s : PMState) (state : Nat) (now : Nat) : PMState :=
  match state with
  | 0 => startToneNB s 160 250 now
  | 1 => startToneNB s 220 200 now
  | 2 => startToneNB s 300 150 now
  | 3 => startToneNB s 600 120 now
  | 4 => startToneNB s 800 100 now
  | _ => startToneNB s 200 120 now

/-- `stopToWelcome()`: back to the welcome screen, record activity. -/
def stopToWelcome (s : PMState) (now : Nat) : PMState :=
  let s1 := { s with currentScreen := 0 }
  let s2 := lcdPrintIfChanged s1 ("Play PotMatch :)") ("Press to select")
  { s2 with lastActivity := now }

/-- `startLevel(L)`: clamp the level, draw the fresh random target (supplied
here by the environment as `newTarget`), arm the timer and try counter, show
the level banner, reset pot-stability tracking and LEDs. -/
def startLevel (s : PMState) (L : Nat) (newTarget : Int) (now : Nat) : PMState :=
  let sel := if L < 1 then 1 else if L > 5 then 5 else L
  let tries : Int := if (lvl sel).triesAllowed > 0 then (lvl sel).triesAllowed else 9999
  let l0 := "Level " ++ toString sel
  let l1 := if (lvl sel).timerMs > 0 then
      "Timer:" ++ toString ((lvl sel).timerMs / 1000) ++ "s"
    else "Find the value"
  let s1 := { s with selectedLevel := sel, roundTarget := newTarget,
                     levelStartedAt := now, triesLeft := tries, currentScreen := 2 }
  let s2 := lcdPrintIfChanged s1 l0 l1
  { s2 with lastActivity := now, potStable := false,
            leds := [false, false, false, false, false, false] }

/-- `acceptStablePot(value)`: score the accepted reading, drive LEDs, LCD and
buzzer, spend a try or begin the win animation. -/
def acceptStablePot (s : PMState) (value : Int) (now : Nat) : PMState :=
  let diff : Int := |value - s.roundTarget|
  let state := diffToState diff (lvl s.selectedLevel).winWindow
  let l0 := "L" ++ toString s.selectedLevel ++ " " ++
    (if (lvl s.selectedLevel).timerMs > 0 then
      toString (((lvl s.selectedLevel).timerMs - (now - s.levelStartedAt) + 500) / 1000) ++ "s "
    else "")
  let l1 := if state < 5 then stateMsg state ++ " D:" ++ toString diff
            else stateMsg state ++ " Unlocked"
  let s1 := { s with leds := setLEDsForState state }
  let s2 := lcdPrintIfChanged s1 l0 l1
  if state < 5 then
    let s3 := triggerLoseTone s2 state now
    if (lvl s.selectedLevel).triesAllowed > 0 then
      let s4 := { s3 with triesLeft := s3.triesLeft - 1 }
      if s4.triesLeft ≤ 0 then
        let s5 := lcdPrintIfChanged s4 ("No tries left") ("Returning...")
        let s6 := triggerLoseTone s5 0 now
        stopToWelcome s6 now
      else s4
    else s3
  else
    let s3 := { s2 with winAnimActive := true, winAnimEnd := now + WIN_DISPLAY_MS,
                        melodyPlaying := true, melodyIndex := 0 }
    let s4 := startToneNB s3 (winNotes.getD 0 0) (winDur.getD 0 0) now
    { s4 with melodyNoteEnd := now + winDur.getD 0 0, lastActivity := now }

/-- `updatePot()`: noise-gate the raw reading, emit the stable value once per
stabilization episode, and accept it while in-game. -/
def updatePot (s : PMState) (raw : Int) (now : Nat) : PMState :=
  let s1 := if |raw - s.lastPotRaw| > 3 then
      { s with potChangedAt := now, potStable := false, lastPotRaw := raw }
    else s
  if ¬s1.potStable ∧ now - s1.potChangedAt ≥ POT_STABLE_MS then
    let s2 := { s1 with potStable := true, stableValue := s1.lastPotRaw, lastActivity := now }
    if s2.currentScreen = 2 then acceptStablePot s2 s2.stableValue now else s2
  else s1

/-- `goToSleep()`: blank the display, enter screen 4. -/
def goToSleep (s : PMState) : PMState :=
  { s with displayOn := false, currentScreen := 4 }

/-- `wakeFromSleep()`: restore the display, return to welcome. -/
def wakeFromSleep (s : PMState) (now : Nat) : PMState :=
  let s1 := { s with displayOn := true, currentScreen := 0 }
  let s2 := lcdPrintIfChanged s1 ("Play PotMatch :)") ("Press to select")
  { s2 with lastActivity := now }

/-- `idleCheck()`: enter sleep after `IDLE_TIMEOUT_MS` without activity. -/
def idleCheck (s : PMState) (now : Nat) : PMState :=
  if now - s.lastActivity ≥ IDLE_TIMEOUT_MS ∧ s.currentScreen ≠ 4 then goToSleep s
  else s

/-- The click-window expiry block at the end of `handleButton`: resolve a
nonzero accumulator into a level selection once the window has been open
for more than `CLICK_WINDOW_MS`. -/
def clickWindowCheck (s : PMState) (now : Nat) : PMState :=
  if (s.currentScreen = 0 ∨ s.currentScreen = 1) ∧ 0 < s.clickCount ∧
      now - s.lastClickTime > CLICK_WINDOW_MS then
    let choice0 := s.clickCount
    let choice1 := if choice0 < 1 then 1 else choice0
    let choice := if choice1 > 5 then 5 else choice1
    let s1 := { s with selectedLevel := choice, currentScreen := 1 }
    let l1 := if s1.selectedLevel ≤ s1.unlockedLevel then "Long press to enter"
              else "Level locked"
    let s2 := lcdPrintIfChanged s1 ("Select Level: " ++ toString s1.selectedLevel) l1
    { s2 with clickCount := 0, lastActivity := now }
  else s

/-- The body of `handleButton()` after the `btnLast`/`btnChangedAt`
bookkeeping (`s0` is the state with those fields already updated): classify
confirmed edges (press: wake — with the source's early `return` — or count a
click; release: long-press actions), then run the click-window expiry
check. `newTarget` is the random value the environment supplies if
`startLevel` fires. -/
def handleButtonCore (s0 : PMState) (r : Nat) (newTarget : Int) (now : Nat) : PMState :=
  if now - s0.btnChangedAt > 20 ∧ r ≠ s0.btnState then
    let s1 := { s0 with btnState := r }
    if r = LOW then
      let s2 := { s1 with btnDownAt := now }
      if s2.currentScreen = 4 then wakeFromSleep s2 now
      else
        let s3 :=
          if s2.currentScreen = 0 ∨ s2.currentScreen = 1 then
            let su := { s2 with clickCount := s2.clickCount + 1, lastClickTime := now }
            lcdPrintIfChanged su ("Selecting...") ("Clicks:" ++ toString su.clickCount)
          else s2
        clickWindowCheck s3 now
    else
      let s3 :=
        if now - s1.btnDownAt ≥ LONG_PRESS_MS then
          if s1.currentScreen = 1 then
            if s1.selectedLevel ≤ s1.unlockedLevel then
              startLevel s1 s1.selectedLevel newTarget now
            else lcdPrintIfChanged s1 ("Level locked") ("Long press denied")
          else if s1.currentScreen = 0 then
            if now - s1.lastActivity ≥ 6000 then stopToWelcome s1 now else s1
          else s1
        else s1
      clickWindowCheck s3 now
  else clickWindowCheck s0 now

/-- `handleButton()`: record raw pin transitions into
`btnLast`/`btnChangedAt`, then run the edge classification and the
click-window expiry check of `handleButtonCore`. -/
def handleButton (s : PMState) (r : Nat) (newTarget : Int) (now : Nat) : PMState :=
  handleButtonCore
    (if r ≠ s.btnLast then { s with btnChangedAt := now, btnLast := r } else s)
    r newTarget now

/-- The in-game timer block of `loop()` (lines 135-154): time-up handling
and the periodic status line. -/
def inGameTimer (s : PMState) (now : Nat) : PMState :=
  if s.currentScreen = 2 then
    let elapsed := now - s.levelStartedAt
    let tm := (lvl s.selectedLevel).timerMs
    if 0 < tm ∧ elapsed ≥ tm then
      let s1 := lcdPrintIfChanged s ("Time up!") ("Returning...")
      let s2 := triggerLoseTone s1 0 now
      stopToWelcome s2 now
    else
      let remain := if 0 < tm then (tm - elapsed) / 1000 else 0
      let l0 := "L" ++ toString s.selectedLevel ++ " " ++
        (if 0 < tm then toString remain ++ "s " else "    ") ++
        "Tr:" ++ toString (min s.triesLeft 99)
      lcdPrintIfChanged s l0 s.lcdLine1
  else s

/-- The win-animation auto-check of `loop()` (lines 157-164): when the window
elapses, stop the melody, unlock the next level when the session's level IS
the frontier and the frontier is below 5, and return to welcome. -/
def winAnimCheck (s : PMState) (now : Nat) : PMState :=
  if s.winAnimActive ∧ now ≥ s.winAnimEnd then
    let s1 := { s with winAnimActive := false, melodyPlaying := false, toneOnFreq := 0 }
    let s2 := if s1.selectedLevel = s1.unlockedLevel ∧ s1.unlockedLevel < 5 then
        { s1 with unlockedLevel := s1.unlockedLevel + 1 }
      else s1
    stopToWelcome s2 now
  else s

/-- `checkMelody()`: blink the LEDs on a 120ms phase and advance the win
melody, looping while the win window is open. -/
def checkMelody (s : PMState) (now : Nat) : PMState :=
  if ¬s.melodyPlaying then s
  else
    let s1 := if now - s.lastBlink ≥ 120 then
        { s with lastBlink := now, blinkState := ¬s.blinkState,
                 leds := List.replicate 6 (¬s.blinkState) }
      else s
    if now ≥ s1.melodyNoteEnd then
      let idx := s1.melodyIndex + 1
      if idx ≥ winCount then
        if s1.winAnimActive ∧ now < s1.winAnimEnd then
          let s2 := { s1 with melodyIndex := 0 }
          let s3 := startToneNB s2 (winNotes.getD 0 0) (winDur.getD 0 0) now
          { s3 with melodyNoteEnd := now + winDur.getD 0 0 }
        else { s1 with melodyIndex := idx, melodyPlaying := false, toneOnFreq := 0 }
      else
        let s2 := { s1 with melodyIndex := idx }
        let s3 := startToneNB s2 (winNotes.getD idx 0) (winDur.getD idx 0) now
        { s3 with melodyNoteEnd := now + winDur.getD idx 0 }
    else s1

/-- One pass of `loop()`: the fixed polling order of the orchestrator. -/
def loopTick (s : PMState) (btnR : Nat) (potRaw newTarget : Int) (now : Nat) : PMState :=
  let s1 := handleButton s btnR newTarget now
  let s2 := updatePot s1 potRaw now
  let s3 := checkToneNB s2 now
  let s4 := checkMelody s3 now
  let s5 := idleCheck s4 now
  let s6 := inGameTimer s5 now
  winAnimCheck s6 now

/-- The global state right after `setup()`: `t0` is the initial random
target, `bootNow` the `millis()` reading recorded into `lastActivity`. -/
def initState (t0 : Int) (bootNow : Nat) : PMState :=
  { selectedLevel := 1, unlockedLevel := 1, currentScreen := 0,
    lastActivity := bootNow, lastPotRaw := 0, potChangedAt := 0,
    potStable := false, stableValue := 0, roundTarget := t0,
    levelStartedAt := 0, triesLeft := 0, btnState := HIGH, btnLast := HIGH,
    btnChangedAt := 0, btnDownAt := 0, clickCount := 0, lastClickTime := 0,
    toneEndAt := 0, toneOnFreq := 0, melodyIndex := 0, melodyNoteEnd := 0,
    melodyPlaying := false, winAnimEnd := 0, winAnimActive := false,
    lcdLine0 := "Play PotMatch :)", lcdLine1 := "Press to select",
    displayOn := true, leds := [false, false, false, false, false, false],
    lastBlink := 0, blinkState := false }

/-- Folding `acceptStablePot` over a list of accepted `(value, now)` pairs. -/
def acceptRun (s : PMState) (inputs : List (Int × Nat)) : PMState :=
  inputs.foldl (fun st p => acceptStablePot st p.1 p.2) s

/-- Invariant of the button-gesture subsystem, at the time `t` of the last
`handleButton` poll: the debounced pin level is a valid logic level, and an
unresolved click accumulator implies the click window is at most
`CLICK_WINDOW_MS` old, we are on the welcome / level-select screen, and —
while the button is held — the window opened at the press-down instant. -/
def GestureInv (s : PMState) (t : Nat) : Prop :=
  (s.btnState = LOW ∨ s.btnState = HIGH) ∧
  (0 < s.clickCount →
    (s.currentScreen = 0 ∨ s.currentScreen = 1) ∧
    s.lastClickTime ≤ t ∧
    t - s.lastClickTime ≤ CLICK_WINDOW_MS ∧
    (s.btnState = LOW → s.lastClickTime = s.btnDownAt))

instance (s : PMState) (t : Nat) : Decidable (GestureInv s t) := by
  unfold GestureInv; infer_instance

/-- Concrete in-game state for the C1 counterexample: level 1, target 500. -/
def c1S : PMState :=
  { initState 500 0 with currentScreen := 2, roundTarget := 500 }

/-- Concrete pre-level state for the C2 failing input: the pot settled on raw
value 512 long ago (`potChangedAt = 0`), its stable value was already emitted
(`potStable = true`) before the level is entered. -/
def c2S : PMState :=
  { initState 500 0 with potStable := true, lastPotRaw := 512,
                         stableValue := 512, lastActivity := 500 }

/-- Concrete state for the C3 witness: level-select screen, button held since
1000-900=100, no pending clicks. -/
def c3S : PMState :=
  { initState 500 0 with currentScreen := 1, btnState := LOW, btnLast := HIGH,
                         btnChangedAt := 1000, btnDownAt := 100 }

/-- Concrete win-animation state for the C6 witness. -/
def c6S : PMState :=
  { initState 500 0 with currentScreen := 2, winAnimActive := true,
                         winAnimEnd := 5000 }

/-- Concrete level-select state for the C7 witness: level 1 selected,
button held for 921ms. -/
def c7S : PMState :=
  { initState 500 0 with currentScreen := 1, btnState := LOW, btnLast := HIGH,
                         btnChangedAt := 1000, btnDownAt := 100, lastActivity := 900 }

/-- Concrete welcome-screen state for the C8 witness: 3 clicks banked,
last press at 100. -/
def c8S : PMState :=
  { initState 500 0 with clickCount := 3, lastClickTime := 100 }

/-- Concrete sleeping state for the C9 witness. -/
def c9S : PMState :=
  { initState 500 0 with currentScreen := 4, btnState := HIGH, btnLast := LOW,
                         btnChangedAt := 100, displayOn := false }

/-! ## Helper lemmas -/

/-- The LCD cache diff is invisible at the state level: printing always
leaves the cache holding exactly the requested lines. -/
@[simp] theorem lcdPrint_eq (s : PMState) (a b : String) :
    lcdPrintIfChanged s a b = { s with lcdLine0 := a, lcdLine1 := b } := by
  unfold lcdPrintIfChanged
  split
  · rfl
  · next h =>
    push_neg at h
    obtain ⟨h0, h1⟩ := h
    subst h0; subst h1
    rfl

@[simp] theorem startToneNB_triesLeft (s : PMState) (f : Int) (d now : Nat) :
    (startToneNB s f d now).triesLeft = s.triesLeft := by
  unfold startToneNB; split <;> rfl

@[simp] theorem startToneNB_currentScreen (s : PMState) (f : Int) (d now : Nat) :
    (startToneNB s f d now).currentScreen = s.currentScreen := by
  unfold startToneNB; split <;> rfl

@[simp] theorem startToneNB_selectedLevel (s : PMState) (f : Int) (d now : Nat) :
    (startToneNB s f d now).selectedLevel = s.selectedLevel := by
  unfold startToneNB; split <;> rfl

@[simp] theorem startToneNB_roundTarget (s : PMState) (f : Int) (d now : Nat) :
    (startToneNB s f d now).roundTarget = s.roundTarget := by
  unfold startToneNB; split <;> rfl

@[simp] theorem startToneNB_unlockedLevel (s : PMState) (f : Int) (d now : Nat) :
    (startToneNB s f d now).unlockedLevel = s.unlockedLevel := by
  unfold startToneNB; split <;> rfl

@[simp] theorem startToneNB_clickCount (s : PMState) (f : Int) (d now : Nat) :
    (startToneNB s f d now).clickCount = s.clickCount := by
  unfold startToneNB; split <;> rfl

@[simp] theorem startToneNB_btnState (s : PMState) (f : Int) (d now : Nat) :
    (startToneNB s f d now).btnState = s.btnState := by
  unfold startToneNB; split <;> rfl

@[simp] theorem startToneNB_lastClickTime (s : PMState) (f : Int) (d now : Nat) :
    (startToneNB s f d now).lastClickTime = s.lastClickTime := by
  unfold startToneNB; split <;> rfl

@[simp] theorem startToneNB_btnDownAt (s : PMState) (f : Int) (d now : Nat) :
    (startToneNB s f d now).btnDownAt = s.btnDownAt := by
  unfold startToneNB; split <;> rfl

@[simp] theorem startToneNB_winAnimActive (s : PMState) (f : Int) (d now : Nat) :
    (startToneNB s f d now).winAnimActive = s.winAnimActive := by
  unfold startToneNB; split <;> rfl

@[simp] theorem startToneNB_winAnimEnd (s : PMState) (f : Int) (d now : Nat) :
    (startToneNB s f d now).winAnimEnd = s.winAnimEnd := by
  unfold startToneNB; split <;> rfl

@[simp] theorem startToneNB_lcdLine0 (s : PMState) (f : Int) (d now : Nat) :
    (startToneNB s f d now).lcdLine0 = s.lcdLine0 := by
  unfold startToneNB; split <;> rfl

@[simp] theorem startToneNB_lcdLine1 (s : PMState) (f : Int) (d now : Nat) :
    (startToneNB s f d now).lcdLine1 = s.lcdLine1 := by
  unfold startToneNB; split <;> rfl

@[simp] theorem startToneNB_lastActivity (s : PMState) (f : Int) (d now : Nat) :
    (startToneNB s f d now).lastActivity = s.lastActivity := by
  unfold startToneNB; split <;> rfl

@[simp] theorem startToneNB_displayOn (s : PMState) (f : Int) (d now : Nat) :
    (startToneNB s f d now).displayOn = s.displayOn := by
  unfold startToneNB; split <;> rfl

@[simp] theorem triggerLoseTone_triesLeft (s : PMState) (st now : Nat) :
    (triggerLoseTone s st now).triesLeft = s.triesLeft := by
  rcases st with _ | _ | _ | _ | _ | st <;> simp [triggerLoseTone]

@[simp] theorem triggerLoseTone_currentScreen (s : PMState) (st now : Nat) :
    (triggerLoseTone s st now).currentScreen = s.currentScreen := by
  rcases st with _ | _ | _ | _ | _ | st <;> simp [triggerLoseTone]

@[simp] theorem triggerLoseTone_selectedLevel (s : PMState) (st now : Nat) :
    (triggerLoseTone s st now).selectedLevel = s.selectedLevel := by
  rcases st with _ | _ | _ | _ | _ | st <;> simp [triggerLoseTone]

@[simp] theorem triggerLoseTone_roundTarget (s : PMState) (st now : Nat) :
    (triggerLoseTone s st now).roundTarget = s.roundTarget := by
  rcases st with _ | _ | _ | _ | _ | st <;> simp [triggerLoseTone]

@[simp] theorem triggerLoseTone_unlockedLevel (s : PMState) (st now : Nat) :
    (triggerLoseTone s st now).unlockedLevel = s.unlockedLevel := by
  rcases st with _ | _ | _ | _ | _ | st <;> simp [triggerLoseTone]

@[simp] theorem triggerLoseTone_winAnimActive (s : PMState) (st now : Nat) :
    (triggerLoseTone s st now).winAnimActive = s.winAnimActive := by
  rcases st with _ | _ | _ | _ | _ | st <;> simp [triggerLoseTone]

/-! ## Claim theorems -/

/-- C4: for every non-negative `diff` and win window `w ≥ 1` (all configured
windows are), `diffToState` realizes the six bands with strictly increasing
thresholds, first match winning: `diff ≤ w` gives 5, `≤ 2w` gives 4, `≤ 4w`
gives 3, `≤ 8w` gives 2, `≤ 15w` gives 1, else 0; in particular `diff = w`
yields band 5 and `diff = w + 1` yields band 4. -/
theorem potmatch_c4 (diff w : Int) (hd : 0 ≤ diff) (hw : 1 ≤ w) :
    (diffToState diff w = 5 ↔ diff ≤ w) ∧
    (diffToState diff w = 4 ↔ w < diff ∧ diff ≤ w * 2) ∧
    (diffToState diff w = 3 ↔ w * 2 < diff ∧ diff ≤ w * 4) ∧
    (diffToState diff w = 2 ↔ w * 4 < diff ∧ diff ≤ w * 8) ∧
    (diffToState diff w = 1 ↔ w * 8 < diff ∧ diff ≤ w * 15) ∧
    (diffToState diff w = 0 ↔ w * 15 < diff) ∧
    diffToState w w = 5 ∧ diffToState (w + 1) w = 4 := by
  refine ⟨?_, ?_, ?_, ?_, ?_, ?_, ?_, ?_⟩ <;>
    · unfold diffToState
      split_ifs <;> (try simp only [false_iff, true_iff]) <;> omega

/-- C4 witness: the band-5/band-4 boundary at the level-4 window `w = 16`. -/
theorem potmatch_c4_witness : diffToState (16 + 1) 16 = 4 :=
  (potmatch_c4 17 16 (by norm_num) (by norm_num)).2.2.2.2.2.2.2

/-- C1 counterexample: in-game (screen 2) with target 500, the accepted
reading 500 scores band 5 and opens the 5000ms win window
(`winAnimActive`, `winAnimEnd = 6000 > 1000`), yet the screen state stays
`2` (InGame) — it does NOT become `3` (WinAnimation). -/
theorem potmatch_c1_counterexample :
    (acceptStablePot c1S 500 1000).winAnimActive = true ∧
    1000 < (acceptStablePot c1S 500 1000).winAnimEnd ∧
    (acceptStablePot c1S 500 1000).currentScreen = 2 ∧
    ¬(acceptStablePot c1S 500 1000).currentScreen = 3 := by decide

/-- C1 (amended): when the screen state is InGame (2) and an accepted stable
reading scores band 5, the code opens the 5000ms win window by setting
`winAnimActive` with `winAnimEnd = now + WIN_DISPLAY_MS`, while
`currentScreen` remains InGame (2); the `WinAnimation` screen code 3 is
never assigned. -/
theorem potmatch_c1_amended (s : PMState) (v : Int) (now : Nat)
    (hscr : s.currentScreen = 2)
    (hband : diffToState |v - s.roundTarget| (lvl s.selectedLevel).winWindow = 5) :
    (acceptStablePot s v now).winAnimActive = true ∧
    (acceptStablePot s v now).winAnimEnd = now + WIN_DISPLAY_MS ∧
    (acceptStablePot s v now).currentScreen = 2 := by
  simp [acceptStablePot, hband, hscr]

/-- C1 witness for the amended theorem, at the counterexample's input. -/
theorem potmatch_c1_witness :
    (acceptStablePot c1S 500 1000).winAnimActive = true ∧
    (acceptStablePot c1S 500 1000).winAnimEnd = 1000 + WIN_DISPLAY_MS ∧
    (acceptStablePot c1S 500 1000).currentScreen = 2 :=
  potmatch_c1_amended c1S 500 1000 (by decide) (by decide)

/-- C2 (code bug evaluated at the failing input): the pot settled on 512
long before the level is entered and its stable value was already emitted.
`startLevel` resets only `potStable` (not `potChangedAt`), so on the very
next poll — 1ms after level entry, the pot never moving — the stale value
is re-emitted, re-accepted, and (target = 512) instantly wins. -/
theorem potmatch_c2_bug :
    (startLevel c2S 4 512 10000).potStable = false ∧
    (startLevel c2S 4 512 10000).potChangedAt = 0 ∧
    (updatePot (startLevel c2S 4 512 10000) 512 10001).potStable = true ∧
    (updatePot (startLevel c2S 4 512 10000) 512 10001).stableValue = 512 ∧
    (updatePot (startLevel c2S 4 512 10000) 512 10001).winAnimActive = true := by
  decide

/-- C6: when the win window elapses, `unlockedLevel` is incremented by
exactly 1 iff the session's level equals the frontier and the frontier is
below 5 (otherwise unchanged), the screen returns to Welcome, and the
frontier never exceeds 5. -/
theorem potmatch_c6 (s : PMState) (now : Nat)
    (hact : s.winAnimActive = true) (hend : now ≥ s.winAnimEnd) :
    (winAnimCheck s now).unlockedLevel =
      (if s.selectedLevel = s.unlockedLevel ∧ s.unlockedLevel < 5
       then s.unlockedLevel + 1 else s.unlockedLevel) ∧
    (winAnimCheck s now).currentScreen = 0 ∧
    (s.unlockedLevel ≤ 5 → (winAnimCheck s now).unlockedLevel ≤ 5) := by
  simp only [winAnimCheck, stopToWelcome, hact, hend, lcdPrint_eq]
  split_ifs <;> simp_all <;> omega

/-- C6 witness: a win at the frontier (level 1, frontier 1) unlocks level 2
and returns to Welcome. -/
theorem potmatch_c6_witness :
    (winAnimCheck c6S 5000).currentScreen = 0 ∧
    (c6S.unlockedLevel ≤ 5 → (winAnimCheck c6S 5000).unlockedLevel ≤ 5) :=
  ⟨(potmatch_c6 c6S 5000 (by decide) (by decide)).2.1,
   (potmatch_c6 c6S 5000 (by decide) (by decide)).2.2⟩

/-- C9: (a) from any screen other than Asleep (4), once `IDLE_TIMEOUT_MS`
(36000ms) have passed since the last activity, `idleCheck` enters Asleep and
blanks the display; (b) a confirmed press while Asleep always wakes to
Welcome (0), restoring the display and refreshing activity, regardless of
everything else in the state (any in-progress session is abandoned). -/
theorem potmatch_c9 :
    (∀ (s : PMState) (now : Nat), s.currentScreen ≠ 4 →
      now - s.lastActivity ≥ IDLE_TIMEOUT_MS →
      (idleCheck s now).currentScreen = 4 ∧ (idleCheck s now).displayOn = false) ∧
    (∀ (s : PMState) (tgt : Int) (now : Nat), s.currentScreen = 4 →
      s.btnState = HIGH → s.btnLast = LOW → now - s.btnChangedAt > 20 →
      (handleButton s LOW tgt now).currentScreen = 0 ∧
      (handleButton s LOW tgt now).displayOn = true ∧
      (handleButton s LOW tgt now).lastActivity = now) := by
  constructor
  · intro s now hscr hidle
    simp [idleCheck, goToSleep, hidle, hscr]
  · intro s tgt now hscr hbs hbl hchg
    simp [handleButton, handleButtonCore, wakeFromSleep, hscr, hbs, hbl, hchg]

/-- C9 witness: the freshly booted device sleeps at 36000ms; the sleeping
state `c9S` wakes to Welcome on a confirmed press. -/
theorem potmatch_c9_witness :
    (idleCheck (initState 500 0) 36000).currentScreen = 4 ∧
    (handleButton c9S LOW 0 200).currentScreen = 0 :=
  ⟨(potmatch_c9.1 (initState 500 0) 36000 (by decide) (by decide)).1,
   (potmatch_c9.2 c9S 0 200 (by decide) (by decide) (by decide) (by decide)).1⟩

/-- A non-winning accepted reading on a level with a finite try budget:
one try is spent; the session leaves the in-game screen exactly when the
counter hits zero; level, target and frontier are untouched. -/
theorem accept_nonwin_step (s : PMState) (v : Int) (now : Nat)
    (hband : diffToState |v - s.roundTarget| (lvl s.selectedLevel).winWindow < 5)
    (htries : 0 < (lvl s.selectedLevel).triesAllowed) :
    (acceptStablePot s v now).triesLeft = s.triesLeft - 1 ∧
    (acceptStablePot s v now).currentScreen =
      (if s.triesLeft - 1 ≤ 0 then 0 else s.currentScreen) ∧
    (acceptStablePot s v now).selectedLevel = s.selectedLevel ∧
    (acceptStablePot s v now).roundTarget = s.roundTarget := by
  simp only [acceptStablePot, lcdPrint_eq, hband, if_pos, htries]
  simp only [triggerLoseTone_triesLeft, triggerLoseTone_currentScreen,
    triggerLoseTone_selectedLevel, triggerLoseTone_roundTarget, stopToWelcome, lcdPrint_eq]
  split_ifs <;> simp_all

/-- Any accepted reading on a level with no try budget (`triesAllowed = 0`)
leaves the try counter, the screen, the level and the target unchanged. -/
theorem accept_unlimited_step (s : PMState) (v : Int) (now : Nat)
    (htries : (lvl s.selectedLevel).triesAllowed ≤ 0) :
    (acceptStablePot s v now).triesLeft = s.triesLeft ∧
    (acceptStablePot s v now).currentScreen = s.currentScreen ∧
    (acceptStablePot s v now).selectedLevel = s.selectedLevel ∧
    (acceptStablePot s v now).roundTarget = s.roundTarget := by
  have hnt : ¬ 0 < (lvl s.selectedLevel).triesAllowed := by omega
  simp only [acceptStablePot, lcdPrint_eq]
  split_ifs <;> simp_all

/-- C5: a session started on level 4 (try budget 5) survives the first four
consecutive non-winning accepted readings (screen stays 2 = InGame, tries
counting 4, 3, 2, 1) and the fifth triggers the lose-by-tries transition
back to Welcome (screen 0). -/
theorem potmatch_c5 (s : PMState) (tgt : Int) (n0 : Nat)
    (v1 v2 v3 v4 v5 : Int) (t1 t2 t3 t4 t5 : Nat)
    (h1 : diffToState |v1 - tgt| 16 < 5) (h2 : diffToState |v2 - tgt| 16 < 5)
    (h3 : diffToState |v3 - tgt| 16 < 5) (h4 : diffToState |v4 - tgt| 16 < 5)
    (h5 : diffToState |v5 - tgt| 16 < 5) :
    (acceptRun (startLevel s 4 tgt n0) [(v1, t1)]).currentScreen = 2 ∧
    (acceptRun (startLevel s 4 tgt n0) [(v1, t1)]).triesLeft = 4 ∧
    (acceptRun (startLevel s 4 tgt n0) [(v1, t1), (v2, t2)]).currentScreen = 2 ∧
    (acceptRun (startLevel s 4 tgt n0) [(v1, t1), (v2, t2), (v3, t3)]).currentScreen = 2 ∧
    (acceptRun (startLevel s 4 tgt n0)
      [(v1, t1), (v2, t2), (v3, t3), (v4, t4)]).currentScreen = 2 ∧
    (acceptRun (startLevel s 4 tgt n0)
      [(v1, t1), (v2, t2), (v3, t3), (v4, t4)]).triesLeft = 1 ∧
    (acceptRun (startLevel s 4 tgt n0)
      [(v1, t1), (v2, t2), (v3, t3), (v4, t4), (v5, t5)]).currentScreen = 0 := by
  have hs0 : (startLevel s 4 tgt n0).selectedLevel = 4 := by simp [startLevel]
  have hs0t : (startLevel s 4 tgt n0).roundTarget = tgt := by simp [startLevel]
  have hs0tr : (startLevel s 4 tgt n0).triesLeft = 5 := by simp [startLevel, lvl]
  have hs0sc : (startLevel s 4 tgt n0).currentScreen = 2 := by simp [startLevel]
  set a0 := startLevel s 4 tgt n0 with ha0
  have s1 := accept_nonwin_step a0 v1 t1 (by rw [hs0, hs0t]; exact h1)
    (by rw [hs0]; decide)
  set a1 := acceptStablePot a0 v1 t1 with ha1
  obtain ⟨e1t, e1s, e1l, e1r⟩ := s1
  rw [hs0tr] at e1t; rw [hs0tr, hs0sc] at e1s
  norm_num at e1t e1s
  have s2 := accept_nonwin_step a1 v2 t2
    (by rw [e1l, hs0, e1r, hs0t]; exact h2) (by rw [e1l, hs0]; decide)
  set a2 := acceptStablePot a1 v2 t2 with ha2
  obtain ⟨e2t, e2s, e2l, e2r⟩ := s2
  rw [e1t] at e2t; rw [e1t, e1s] at e2s
  norm_num at e2t e2s
  have s3 := accept_nonwin_step a2 v3 t3
    (by rw [e2l, e1l, hs0, e2r, e1r, hs0t]; exact h3) (by rw [e2l, e1l, hs0]; decide)
  set a3 := acceptStablePot a2 v3 t3 with ha3
  obtain ⟨e3t, e3s, e3l, e3r⟩ := s3
  rw [e2t] at e3t; rw [e2t, e2s] at e3s
  norm_num at e3t e3s
  have s4 := accept_nonwin_step a3 v4 t4
    (by rw [e3l, e2l, e1l, hs0, e3r, e2r, e1r, hs0t]; exact h4)
    (by rw [e3l, e2l, e1l, hs0]; decide)
  set a4 := acceptStablePot a3 v4 t4 with ha4
  obtain ⟨e4t, e4s, e4l, e4r⟩ := s4
  rw [e3t] at e4t; rw [e3t, e3s] at e4s
  norm_num at e4t e4s
  have s5 := accept_nonwin_step a4 v5 t5
    (by rw [e4l, e3l, e2l, e1l, hs0, e4r, e3r, e2r, e1r, hs0t]; exact h5)
    (by rw [e4l, e3l, e2l, e1l, hs0]; decide)
  set a5 := acceptStablePot a4 v5 t5 with ha5
  obtain ⟨e5t, e5s, e5l, e5r⟩ := s5
  rw [e4t] at e5t; rw [e4t] at e5s
  norm_num at e5t e5s
  simp only [acceptRun, List.foldl]
  rw [← ha1, ← ha2, ← ha3, ← ha4, ← ha5]
  exact ⟨e1s, e1t, e2s, e3s, e4s, e4t, e5s⟩

/-- C5 witness: target 500, five readings of 0 (band 0) on level 4. -/
theorem potmatch_c5_witness :
    (acceptRun (startLevel (initState 500 0) 4 500 1000)
      [(0, 1100), (0, 1200), (0, 1300), (0, 1400)]).currentScreen = 2 ∧
    (acceptRun (startLevel (initState 500 0) 4 500 1000)
      [(0, 1100), (0, 1200), (0, 1300), (0, 1400), (0, 1500)]).currentScreen = 0 :=
  ⟨(potmatch_c5 (initState 500 0) 500 1000 0 0 0 0 0 1100 1200 1300 1400 1500
      (by decide) (by decide) (by decide) (by decide) (by decide)).2.2.2.2.1,
   (potmatch_c5 (initState 500 0) 500 1000 0 0 0 0 0 1100 1200 1300 1400 1500
      (by decide) (by decide) (by decide) (by decide) (by decide)).2.2.2.2.2.2⟩

/-- Accepted readings on an unlimited level never change the try counter,
the screen, the level or the target, however many there are. -/
theorem acceptRun_unlimited (inputs : List (Int × Nat)) :
    ∀ (s : PMState), (lvl s.selectedLevel).triesAllowed ≤ 0 →
    (acceptRun s inputs).triesLeft = s.triesLeft ∧
    (acceptRun s inputs).currentScreen = s.currentScreen ∧
    (acceptRun s inputs).selectedLevel = s.selectedLevel := by
  induction inputs with
  | nil => intro s _; exact ⟨rfl, rfl, rfl⟩
  | cons p rest ih =>
    intro s h
    obtain ⟨st, ssc, ssl, _⟩ := accept_unlimited_step s p.1 p.2 h
    have h2 : (lvl (acceptStablePot s p.1 p.2).selectedLevel).triesAllowed ≤ 0 := by
      rw [ssl]; exact h
    obtain ⟨rt, rsc, rsl⟩ := ih (acceptStablePot s p.1 p.2) h2
    have hrun : acceptRun s (p :: rest) = acceptRun (acceptStablePot s p.1 p.2) rest := rfl
    rw [hrun]
    exact ⟨rt.trans st, rsc.trans ssc, rsl.trans ssl⟩

/-- C10: entering one of the unlimited levels 1-3 (`triesAllowed = 0`)
initializes the try counter to the sentinel 9999, and no sequence of
accepted readings ever decrements it or leaves the in-game screen through
the lose-by-tries branch: after any run of accepted readings the counter is
still 9999 and the screen still 2. -/
theorem potmatch_c10 (s : PMState) (L : Nat) (tgt : Int) (n0 : Nat)
    (hL : L = 1 ∨ L = 2 ∨ L = 3) (inputs : List (Int × Nat)) :
    (startLevel s L tgt n0).triesLeft = 9999 ∧
    (acceptRun (startLevel s L tgt n0) inputs).triesLeft = 9999 ∧
    (acceptRun (startLevel s L tgt n0) inputs).currentScreen = 2 := by
  have hsel : (startLevel s L tgt n0).selectedLevel = L := by
    rcases hL with h | h | h <;> subst h <;> simp [startLevel]
  have htr : (startLevel s L tgt n0).triesLeft = 9999 := by
    rcases hL with h | h | h <;> subst h <;> simp [startLevel, lvl]
  have hsc : (startLevel s L tgt n0).currentScreen = 2 := by simp [startLevel]
  have hta : (lvl (startLevel s L tgt n0).selectedLevel).triesAllowed ≤ 0 := by
    rw [hsel]; rcases hL with h | h | h <;> subst h <;> decide
  obtain ⟨rt, rsc, _⟩ := acceptRun_unlimited inputs (startLevel s L tgt n0) hta
  exact ⟨htr, rt.trans htr, rsc.trans hsc⟩

/-- When the tick carries no confirmed edge (`r` equals the debounced
level), `handleButton` is just the debounce-timestamp update followed by
the click-window expiry check. -/
theorem handleButtonCore_noedge (s0 : PMState) (r : Nat) (tgt : Int) (now : Nat)
    (hr : r = s0.btnState) :
    handleButtonCore s0 r tgt now = clickWindowCheck s0 now := by
  unfold handleButtonCore
  rw [if_neg (by simp [hr])]

theorem handleButton_noedge (s : PMState) (r : Nat) (tgt : Int) (now : Nat)
    (hr : r = s.btnState) :
    handleButton s r tgt now =
      clickWindowCheck
        (if r ≠ s.btnLast then { s with btnChangedAt := now, btnLast := r } else s) now := by
  unfold handleButton
  apply handleButtonCore_noedge
  split <;> exact hr

/-- The click-window expiry check leaves the state unchanged when its
condition fails. -/
theorem clickWindowCheck_skip (sp : PMState) (now : Nat)
    (h : ¬((sp.currentScreen = 0 ∨ sp.currentScreen = 1) ∧ 0 < sp.clickCount ∧
          now - sp.lastClickTime > CLICK_WINDOW_MS)) :
    clickWindowCheck sp now = sp := by
  unfold clickWindowCheck
  rw [if_neg h]

/-- After the click-window expiry check the screen is LevelSelect (1) or
the state is untouched. -/
theorem clickWindowCheck_screen (sp : PMState) (now : Nat) :
    (clickWindowCheck sp now).currentScreen = 1 ∨ clickWindowCheck sp now = sp := by
  unfold clickWindowCheck
  split
  · left; simp
  · right; rfl

/-- C10 witness: level 1, three wildly different accepted readings. -/
theorem potmatch_c10_witness :
    (acceptRun (startLevel (initState 500 0) 1 500 1000)
      [(0, 1100), (1023, 1200), (500, 1300)]).triesLeft = 9999 ∧
    (acceptRun (startLevel (initState 500 0) 1 500 1000)
      [(0, 1100), (1023, 1200), (500, 1300)]).currentScreen = 2 :=
  ⟨(potmatch_c10 (initState 500 0) 1 500 1000 (Or.inl rfl)
      [(0, 1100), (1023, 1200), (500, 1300)]).2.1,
   (potmatch_c10 (initState 500 0) 1 500 1000 (Or.inl rfl)
      [(0, 1100), (1023, 1200), (500, 1300)]).2.2⟩

/-- C7: on the LevelSelect screen (1), a confirmed release after a hold of
at least `LONG_PRESS_MS` enters the game (screen 2) iff the selected level
is within the unlocked frontier; on a locked level the screen stays
LevelSelect and (with no pending clicks) the locked message is shown, so a
locked level is never entered. -/
theorem potmatch_c7 (s : PMState) (tgt : Int) (now : Nat)
    (hscr : s.currentScreen = 1) (hbs : s.btnState = LOW) (hbl : s.btnLast = HIGH)
    (hchg : now - s.btnChangedAt > 20) (hdur : now - s.btnDownAt ≥ LONG_PRESS_MS) :
    ((handleButton s HIGH tgt now).currentScreen = 2 ↔
      s.selectedLevel ≤ s.unlockedLevel) ∧
    (s.unlockedLevel < s.selectedLevel → s.clickCount = 0 →
      (handleButton s HIGH tgt now).currentScreen = 1 ∧
      (handleButton s HIGH tgt now).lcdLine0 = "Level locked" ∧
      (handleButton s HIGH tgt now).lcdLine1 = "Long press denied") := by
  have hkey : handleButton s HIGH tgt now =
      clickWindowCheck
        (if ({s with btnState := HIGH} : PMState).selectedLevel ≤ s.unlockedLevel then
          startLevel { s with btnState := HIGH } s.selectedLevel tgt now
        else lcdPrintIfChanged { s with btnState := HIGH }
          ("Level locked") ("Long press denied")) now := by
    simp [handleButton, handleButtonCore, hbl, hbs, hscr, hchg, hdur]
  rw [hkey]
  have hproj : ({ s with btnState := HIGH } : PMState).selectedLevel = s.selectedLevel := rfl
  split_ifs with hsel
  · -- unlocked: the level starts; screen 2 skips the expiry check
    rw [hproj] at hsel
    rw [clickWindowCheck_skip _ _ (by simp [startLevel])]
    refine ⟨?_, fun hlock _ => absurd hsel (by omega)⟩
    simp [startLevel, hsel]
  · -- locked: screen stays 1 whether or not the expiry check fires
    rw [hproj] at hsel
    constructor
    · rcases clickWindowCheck_screen
        (lcdPrintIfChanged { s with btnState := HIGH }
          ("Level locked") ("Long press denied")) now with h | h
      · rw [h]
        constructor
        · intro h12; omega
        · intro hle; exact absurd hle hsel
      · rw [h]
        simp [hscr]
        omega
    · intro _ hcc
      rw [clickWindowCheck_skip _ _ (by simp [hcc])]
      refine ⟨by simp [hscr], by simp, by simp⟩

/-- C7 witness: level 1 within frontier 1 starts; with the same hold, level
3 beyond frontier 1 is refused with the locked message. -/
theorem potmatch_c7_witness :
    ((handleButton c7S HIGH 0 1021).currentScreen = 2 ↔
      c7S.selectedLevel ≤ c7S.unlockedLevel) ∧
    ((handleButton { c7S with selectedLevel := 3 } HIGH 0 1021).currentScreen = 1 ∧
     (handleButton { c7S with selectedLevel := 3 } HIGH 0 1021).lcdLine0 = "Level locked" ∧
     (handleButton { c7S with selectedLevel := 3 } HIGH 0 1021).lcdLine1 = "Long press denied") :=
  ⟨(potmatch_c7 c7S 0 1021 (by decide) (by decide) (by decide) (by decide) (by decide)).1,
   (potmatch_c7 { c7S with selectedLevel := 3 } 0 1021
      (by decide) (by decide) (by decide) (by decide) (by decide)).2
      (by decide) (by decide)⟩

/-- C8: on the Welcome (0) or LevelSelect (1) screen, on any poll with no
confirmed edge where the click accumulator is nonzero and more than
`CLICK_WINDOW_MS` (700ms) have passed since the last press, the accumulator
resolves: the selected level becomes the count clamped to [1,5], the screen
becomes LevelSelect, and the accumulator is reset to zero (so the
resolution happens exactly once); the trigger is purely time-based. -/
theorem potmatch_c8 (s : PMState) (tgt : Int) (now : Nat) (r : Nat)
    (hscr : s.currentScreen = 0 ∨ s.currentScreen = 1)
    (hcc : 0 < s.clickCount)
    (hwin : now - s.lastClickTime > CLICK_WINDOW_MS)
    (hr : r = s.btnState) :
    (handleButton s r tgt now).selectedLevel = min s.clickCount 5 ∧
    (handleButton s r tgt now).currentScreen = 1 ∧
    (handleButton s r tgt now).clickCount = 0 := by
  rw [handleButton_noedge s r tgt now hr]
  split <;>
  · simp only [clickWindowCheck, lcdPrint_eq]
    rw [if_pos ⟨hscr, hcc, hwin⟩]
    refine ⟨?_, by simp, by simp⟩
    simp only [PMState.selectedLevel]
    split_ifs <;> omega

/-- C8 witness: 3 clicks banked, 1900ms of silence, idle poll resolves to
level 3 on the LevelSelect screen with the accumulator cleared. -/
theorem potmatch_c8_witness :
    (handleButton c8S HIGH 0 2000).selectedLevel = min 3 5 ∧
    (handleButton c8S HIGH 0 2000).currentScreen = 1 ∧
    (handleButton c8S HIGH 0 2000).clickCount = 0 :=
  potmatch_c8 c8S 0 2000 HIGH (Or.inl (by decide)) (by decide) (by decide) (by decide)

/-- The click-window expiry check establishes the gesture invariant at the
poll instant, given the pre-check facts it cannot re-create itself. -/
theorem clickWindowCheck_inv (sp : PMState) (now : Nat)
    (hbs : sp.btnState = LOW ∨ sp.btnState = HIGH)
    (h : 0 < sp.clickCount →
      (sp.currentScreen = 0 ∨ sp.currentScreen = 1) ∧ sp.lastClickTime ≤ now ∧
      (sp.btnState = LOW → sp.lastClickTime = sp.btnDownAt)) :
    GestureInv (clickWindowCheck sp now) now := by
  unfold clickWindowCheck GestureInv
  split
  · next hc =>
    constructor
    · simpa using hbs
    · intro hcc
      simp at hcc
  · next hc =>
    refine ⟨hbs, fun hcc => ?_⟩
    obtain ⟨hscr, hle, heq⟩ := h hcc
    refine ⟨hscr, hle, ?_, heq⟩
    by_contra hgap
    exact hc ⟨hscr, hcc, by omega⟩

/-- `handleButtonCore` establishes the gesture invariant at the poll
instant, given that on entry an unresolved accumulator is on screen 0/1,
its window opened at most `CLICK_WINDOW_MS + 99` ago and — when the button
is held — at the press-down instant. -/
theorem GestureInvCore_step (s0 : PMState) (r : Nat) (tgt : Int) (now : Nat)
    (hbs : s0.btnState = LOW ∨ s0.btnState = HIGH)
    (hr : r = LOW ∨ r = HIGH)
    (hcc : 0 < s0.clickCount →
      (s0.currentScreen = 0 ∨ s0.currentScreen = 1) ∧
      s0.lastClickTime ≤ now ∧
      now - s0.lastClickTime ≤ CLICK_WINDOW_MS + 99 ∧
      (s0.btnState = LOW → s0.lastClickTime = s0.btnDownAt)) :
    GestureInv (handleButtonCore s0 r tgt now) now := by
  simp only [handleButtonCore]
  split
  case isFalse =>
    exact clickWindowCheck_inv s0 now hbs
      (fun hp => ⟨(hcc hp).1, (hcc hp).2.1, (hcc hp).2.2.2⟩)
  case isTrue hconf =>
    by_cases hrl : r = LOW
    · -- confirmed press-down
      subst hrl
      rw [if_pos rfl]
      split
      next hslp =>
        -- asleep: wake, early return; the accumulator must already be 0
        have hcc0 : s0.clickCount = 0 := by
          by_contra hne
          have hw := (hcc (by omega)).1
          have hslp4 : s0.currentScreen = 4 := hslp
          rcases hw with h | h <;> omega
        constructor
        · left
          simp [wakeFromSleep]
        · intro hp
          simp [wakeFromSleep] at hp
          omega
      next hawake =>
        split
        next hwl =>
          -- welcome / level-select: bank a click, window reopens now
          apply clickWindowCheck_inv
          · left; simp
          · intro _
            refine ⟨by simpa using hwl, by simp, by simp⟩
        next hother =>
          -- other screens: no click banked; accumulator was already 0
          have hcc0 : s0.clickCount = 0 := by
            by_contra hne
            exact hother (by simpa using (hcc (by omega)).1)
          apply clickWindowCheck_inv
          · left; rfl
          · intro hp
            rw [show ({ s0 with btnState := LOW, btnDownAt := now } :
                  PMState).clickCount = s0.clickCount from rfl] at hp
            omega
    · -- confirmed release: r = HIGH
      have hrh : r = HIGH := by rcases hr with h | h; exact absurd h hrl; exact h
      rw [if_neg hrl]
      by_cases hp : 0 < s0.clickCount
      · -- pending clicks: the hold is necessarily shorter than LONG_PRESS_MS
        obtain ⟨hscr, hle, hgap7, heq⟩ := hcc hp
        have hblow : s0.btnState = LOW := by
          rcases hbs with h | h
          · exact h
          · exact absurd hrh (by rw [h] at hconf; exact fun h2 => hconf.2 h2)
        have hshort : ¬ (now - ({ s0 with btnState := r } : PMState).btnDownAt
            ≥ LONG_PRESS_MS) := by
          have hb : ({ s0 with btnState := r } : PMState).btnDownAt = s0.btnDownAt := rfl
          rw [hb, ← heq hblow]
          unfold LONG_PRESS_MS
          unfold CLICK_WINDOW_MS at hgap7
          omega
        rw [if_neg hshort]
        apply clickWindowCheck_inv
        · right; rw [hrh]
        · intro _
          refine ⟨by simpa using hscr, hle, fun hlow => ?_⟩
          exfalso
          rw [show ({ s0 with btnState := r } : PMState).btnState = r from rfl, hrh]
            at hlow
          simp [HIGH, LOW] at hlow
      · -- no pending clicks: no branch of the release path creates any
        have hcc0 : s0.clickCount = 0 := by omega
        apply clickWindowCheck_inv
        · split_ifs <;> simp [startLevel, stopToWelcome, hrh]
        · split_ifs <;> intro hq <;>
            simp [startLevel, stopToWelcome, hcc0] at hq

/-- `handleButton` preserves the gesture invariant across one poll, for any
raw pin level, provided polls are at most 99ms apart. -/
theorem GestureInv_step (s : PMState) (t : Nat) (r : Nat) (tgt : Int) (now : Nat)
    (hInv : GestureInv s t) (hr : r = LOW ∨ r = HIGH)
    (ht : t ≤ now) (hgap : now ≤ t + 99) :
    GestureInv (handleButton s r tgt now) now := by
  obtain ⟨hbs, hcc⟩ := hInv
  unfold handleButton
  have htrans : ∀ s0 : PMState, s0.btnState = s.btnState →
      s0.clickCount = s.clickCount → s0.currentScreen = s.currentScreen →
      s0.lastClickTime = s.lastClickTime → s0.btnDownAt = s.btnDownAt →
      GestureInv (handleButtonCore s0 r tgt now) now := by
    intro s0 e1 e2 e3 e4 e5
    apply GestureInvCore_step s0 r tgt now (e1 ▸ hbs) hr
    intro hp
    rw [e2] at hp
    obtain ⟨q1, q2, q3, q4⟩ := hcc hp
    refine ⟨e3 ▸ q1, ?_, ?_, ?_⟩
    · rw [e4]; omega
    · rw [e4]; unfold CLICK_WINDOW_MS at q3 ⊢; omega
    · rw [e1, e4, e5]; exact q4
  split
  · exact htrans _ rfl rfl rfl rfl rfl
  · exact htrans _ rfl rfl rfl rfl rfl

/-- The gesture invariant holds at boot. -/
theorem GestureInv_init (t0 : Int) (bootNow t : Nat) :
    GestureInv (initState t0 bootNow) t := by
  constructor
  · right; rfl
  · intro h
    simp [initState] at h

/-- C3: the click accumulator is empty after a confirmed release whose hold
lasted at least `LONG_PRESS_MS` (so after any long-press action): under the
gesture invariant — maintained by every `handleButton` poll (`GestureInv_step`)
from boot (`GestureInv_init`) when polls are at most 99ms apart — an
unresolved accumulator would force the hold to be shorter than 800ms, so
the accumulator is already 0 (resolved into a level selection by the
window-expiry check at the latest 700ms into the hold), and no branch of
the release path re-creates clicks. -/
theorem potmatch_c3 (s : PMState) (t : Nat) (tgt : Int) (now : Nat)
    (hInv : GestureInv s t) (ht : t ≤ now) (hgap : now ≤ t + 99)
    (hbl : s.btnLast = HIGH) (hbs : s.btnState = LOW)
    (hchg : now - s.btnChangedAt > 20) (hdur : now - s.btnDownAt ≥ LONG_PRESS_MS)
    (hscr : s.currentScreen = 0 ∨ s.currentScreen = 1) :
    (handleButton s HIGH tgt now).clickCount = 0 := by
  -- the accumulator must already be empty at a ≥800ms release
  have hcc0 : s.clickCount = 0 := by
    by_contra hne
    obtain ⟨_, hle, hgap7, heq⟩ := hInv.2 (by omega)
    have hlc := heq hbs
    unfold CLICK_WINDOW_MS at hgap7
    unfold LONG_PRESS_MS at hdur
    omega
  -- and no branch of the confirmed-release path refills it
  unfold handleButton
  rw [if_neg (by simp [hbl])]
  simp only [handleButtonCore]
  rw [if_pos ⟨hchg, by simp [hbs]⟩]
  rw [if_neg (by decide : ¬(HIGH = LOW))]
  split_ifs <;>
  · rw [clickWindowCheck_skip _ _ (by simp [startLevel, stopToWelcome, hcc0])]
    simp [startLevel, stopToWelcome, hcc0]

/-- C3 witness: level-select screen, button held since 100, released and
confirmed at 1021 (hold 921ms ≥ 800ms, entering the selected level);
the accumulator ends at 0. -/
theorem potmatch_c3_witness :
    (handleButton c3S HIGH 0 1021).clickCount = 0 :=
  potmatch_c3 c3S 1000 0 1021 (by decide) (by decide) (by decide) (by decide)
    (by decide) (by decide) (by decide) (Or.inr (by decide))

end PotMatch
